import Mathlib

/-!
Shallow embedding of `src/ncbi_geneid_to_ptlen-genelen.py`.

The program has three functions:
  * `read_email_from_config(config_file="config.ini")` (lines 9-34),
  * `fetch_gene_data(gene_id)` (lines 36-79),
  * `process_gene_list(input_file)` (lines 81-106).

External collaborators (the filesystem, `pandas.read_excel`, the two
NCBI Entrez services) are passed in as explicit function parameters.
Python exceptions are modelled by the `Except PyExc` monad; the
exception class matters because `read_email_from_config` re-raises
`FileNotFoundError` and `KeyError` with new messages, and
`process_gene_list` catches exactly the pair `(FileNotFoundError,
KeyError)` at its boundary while `fetch_gene_data` catches every
exception class.

Modelling notes, faithful to the Python libraries used:
  * `configparser.ConfigParser.read` opens each given file inside
    `try: ... except OSError: continue`, so a missing file is silently
    skipped and yields an empty parser; it never raises
    `FileNotFoundError`.  `configRead` below reflects that.
  * configparser DEFAULT-section fallback, key case folding and value
    interpolation are not modelled; the claims under test do not
    involve them.
  * `random.uniform(0,1)` / `time.sleep` (line 51) only pause
    execution.  The sampled delay is threaded through the embedding as
    an explicit `delay` argument so that independence of the output
    from the random stream is a provable statement rather than a
    modelling artifact.
  * `print` calls write to stdout and return no value; they have no
    observable effect on the returned data and are not modelled.
-/

namespace GeneToolSpec

/-- Python exception classes that the program can raise or catch. -/
inductive PyExc where
  | fileNotFoundError (msg : String)
  | keyError (msg : String)
  | valueError (msg : String)
  | typeError (msg : String)
  | indexError (msg : String)
deriving DecidableEq

/-- The exception classes caught by `except (FileNotFoundError, KeyError)`
at lines 105-106 of `process_gene_list`. -/
def PyExc.caughtByProcess : PyExc → Bool
  | .fileNotFoundError _ => true
  | .keyError _ => true
  | _ => false

/-- Dynamic Python values: the nested list/dict structure returned by
`Entrez.read`, and the scalar cell values of a pandas column. -/
inductive PyObj where
  | str (s : String)
  | int (n : Int)
  | list (xs : List PyObj)
  | dict (entries : List (String × PyObj))

/-- First-match association lookup, as used for dict keys, config
sections/keys and data-frame columns. -/
def assocLookup {α : Type} : List (String × α) → String → Option α
  | [], _ => none
  | (k, v) :: rest, key => if k = key then some v else assocLookup rest key

/-- Python `obj[i]` for an integer index. -/
def pyIndex : PyObj → Nat → Except PyExc PyObj
  | .list xs, i =>
      match xs.get? i with
      | some v => .ok v
      | none => .error (.indexError ("list index out of range"))
  | .dict _, _ => .error (.keyError ("0"))
  | .str s, i =>
      match s.data.get? i with
      | some c => .ok (.str (String.mk [c]))
      | none => .error (.indexError ("string index out of range"))
  | .int _, _ => .error (.typeError ("int object is not subscriptable"))

/-- Python `obj[key]` for a string key. -/
def pyGetItem : PyObj → String → Except PyExc PyObj
  | .dict entries, key =>
      match assocLookup entries key with
      | some v => .ok v
      | none => .error (.keyError key)
  | .str _, _ => .error (.typeError ("string indices must be integers"))
  | _, _ => .error (.typeError ("object is not subscriptable"))

/-- Numeric value of a decimal digit character. -/
def digitVal (c : Char) : Option Nat :=
  if ('0' ≤ c ∧ c ≤ '9') then some (c.toNat - ('0').toNat) else none

/-- Accumulating decimal parser over a character list. -/
def parseNatAux : List Char → Nat → Option Nat
  | [], acc => some acc
  | c :: cs, acc =>
      match digitVal c with
      | some d => parseNatAux cs (acc * 10 + d)
      | none => none

/-- Strip leading and trailing spaces, as Python `int` does to a string. -/
def stripSpaces (cs : List Char) : List Char :=
  ((cs.dropWhile (fun c => c = ' ')).reverse.dropWhile (fun c => c = ' ')).reverse

/-- Python `int(s)` on a string: optional sign then decimal digits
(underscores and non-decimal bases are not modelled). -/
def pyIntOfString (s : String) : Option Int :=
  match stripSpaces s.data with
  | ('-') :: cs =>
      if cs = [] then none else (parseNatAux cs 0).map (fun n => -(n : Int))
  | ('+') :: cs =>
      if cs = [] then none else (parseNatAux cs 0).map (fun n => (n : Int))
  | cs =>
      if cs = [] then none else (parseNatAux cs 0).map (fun n => (n : Int))

/-- Python `int(obj)` (line 53: `gene_id = int(gene_id)`, and the
`int(...)` casts at lines 64-65). -/
def pyToInt : PyObj → Except PyExc Int
  | .int n => .ok n
  | .str s =>
      match pyIntOfString s with
      | some n => .ok n
      | none => .error (.valueError ("invalid literal for int() with base 10: " ++ s))
  | _ => .error (.typeError ("int() argument must be a string or a number"))

/-! ### Configuration reader (lines 9-34) -/

/-- A parsed section of an ini file: key/value pairs. -/
abbrev ConfigSection := List (String × String)

/-- A parsed ini file: named sections. -/
abbrev ConfigData := List (String × ConfigSection)

/-- `config = configparser.ConfigParser(); config.read(config_file)`
(lines 24-25).  `ConfigParser.read` silently skips files it cannot
open, so a missing file yields an empty parser. -/
def configRead (fs : String → Option ConfigData) (config_file : String) : ConfigData :=
  (fs config_file).getD []

/-- The remediation message built at lines 28-31 for a missing config file. -/
def configMissingMsg (config_file : String) : String :=
  "Configuration file \x27" ++ config_file ++ "\x27 not found. " ++
    "Please create a \x27config.ini\x27 file with the following content:\n" ++
    "[NCBI]\n" ++
    "email = your_email@example.com"

/-- The remediation message built at lines 33-34 for a missing key. -/
def keyMissingMsg : String :=
  "The \x27email\x27 key is not found in the \x27NCBI\x27 section of the config file. " ++
    "Please make sure the config file is correctly formatted."

/-- The `try` block of `read_email_from_config` (lines 24-26):
`config.read(config_file); return config['NCBI']['email']`.
`config['NCBI']` raises `KeyError('NCBI')` when the section is absent,
and `section['email']` raises `KeyError('email')` when the key is absent. -/
def emailTryBody (fs : String → Option ConfigData) (config_file : String) :
    Except PyExc String :=
  match assocLookup (configRead fs config_file) ("NCBI") with
  | none => .error (.keyError ("NCBI"))
  | some sect =>
      match assocLookup sect ("email") with
      | none => .error (.keyError ("email"))
      | some v => .ok v

/-- `read_email_from_config` (lines 9-34): runs the `try` block and
re-raises `FileNotFoundError` and `KeyError` with remediation messages. -/
def read_email_from_config (fs : String → Option ConfigData) (config_file : String) :
    Except PyExc String :=
  match emailTryBody fs config_file with
  | .ok v => .ok v
  | .error (.fileNotFoundError _) => .error (.fileNotFoundError (configMissingMsg config_file))
  | .error (.keyError _) => .error (.keyError keyMissingMsg)
  | .error e => .error e

/-! ### `os.path.splitext` (used at line 100) -/

/-- Index of the last occurrence of `c`, as Python `str.rfind`: `-1` when absent. -/
def lastIdxOf (c : Char) (cs : List Char) : Int :=
  match cs with
  | [] => -1
  | x :: xs =>
      match lastIdxOf c xs with
      | -1 => if x = c then 0 else -1
      | j => j + 1

/-- `os.path.splitext` on the character list of a POSIX path, following
`genericpath._splitext`: split at the last dot after the last `/`,
unless every character between them is a dot (a leading-dot basename
such as `.bashrc` has no extension). -/
def splitextCore (cs : List Char) : List Char × List Char :=
  let sepIdx := lastIdxOf ('/') cs
  let dotIdx := lastIdxOf ('.') cs
  if sepIdx < dotIdx then
    let d := dotIdx.toNat
    let fstart := (sepIdx + 1).toNat
    if ((cs.drop fstart).take (d - fstart)).any (fun ch => ch ≠ '.') then
      (cs.take d, cs.drop d)
    else (cs, [])
  else (cs, [])

/-- Root part of `os.path.splitext(p)`. -/
def splitextRoot (p : String) : String :=
  String.mk (splitextCore p.data).1

/-- Extension part of `os.path.splitext(p)`. -/
def splitextExt (p : String) : String :=
  String.mk (splitextCore p.data).2

/-! ### Record fetcher (lines 36-79) -/

/-- Lines 59-60: `locus = record[0]['Entrezgene_locus'][0]` and
`product = locus['Gene-commentary_products'][0]['Gene-commentary_products'][0]`. -/
def extractProduct (record : PyObj) : Except PyExc PyObj := do
  let r0 ← pyIndex record 0
  let el ← pyGetItem r0 ("Entrezgene_locus")
  let locus ← pyIndex el 0
  let prods ← pyGetItem locus ("Gene-commentary_products")
  let p0 ← pyIndex prods 0
  let prods2 ← pyGetItem p0 ("Gene-commentary_products")
  pyIndex prods2 0

/-- Line 63: the navigation
`product['Gene-commentary_genomic-coords'][0]['Seq-loc_mix']['Seq-loc-mix'][0]['Seq-loc_int']['Seq-interval']`.
The value is bound but never used; the navigation can still raise. -/
def navGenomicCoords (product : PyObj) : Except PyExc PyObj := do
  let gcc ← pyGetItem product ("Gene-commentary_genomic-coords")
  let g0 ← pyIndex gcc 0
  let slm ← pyGetItem g0 ("Seq-loc_mix")
  let slml ← pyGetItem slm ("Seq-loc-mix")
  let m0 ← pyIndex slml 0
  let sli ← pyGetItem m0 ("Seq-loc_int")
  pyGetItem sli ("Seq-interval")

/-- The shared navigation of lines 64-65:
`record[0]['Entrezgene_locus'][0]['Gene-commentary_seqs'][0]['Seq-loc_int']['Seq-interval']`. -/
def extractSeqsInterval (record : PyObj) : Except PyExc PyObj := do
  let r0 ← pyIndex record 0
  let el ← pyGetItem r0 ("Entrezgene_locus")
  let l0 ← pyIndex el 0
  let seqs ← pyGetItem l0 ("Gene-commentary_seqs")
  let s0 ← pyIndex seqs 0
  let sli ← pyGetItem s0 ("Seq-loc_int")
  pyGetItem sli ("Seq-interval")

/-- Line 64: `gene_end = int(record[0]...['Seq-interval_to'])`. -/
def extractGeneEnd (record : PyObj) : Except PyExc Int := do
  let si ← extractSeqsInterval record
  let v ← pyGetItem si ("Seq-interval_to")
  pyToInt v

/-- Line 65: `gene_start = int(record[0]...['Seq-interval_from'])`. -/
def extractGeneStart (record : PyObj) : Except PyExc Int := do
  let si ← extractSeqsInterval record
  let v ← pyGetItem si ("Seq-interval_from")
  pyToInt v

/-- The `try` block of `fetch_gene_data` (lines 50-75).
`geneDB` models `Entrez.efetch(db="gene", ...)` followed by
`Entrez.read`: it maps the integer gene id to a parsed record or an
exception.  `proteinDB` models `Entrez.efetch(db="protein", ...)`
followed by `SeqIO.read(handle, "fasta")`: it maps the accession
object to the sequence string of the single parsed record, or an
exception.  Returns `(protein_accession, gene_length, protein_length)`. -/
def fetchBody (geneDB : Int → Except PyExc PyObj)
    (proteinDB : PyObj → Except PyExc String)
    (gene_id : PyObj) : Except PyExc (PyObj × Int × Nat) :=
  match pyToInt gene_id with
  | .error e => .error e
  | .ok gid =>
    match geneDB gid with
    | .error e => .error e
    | .ok record =>
      match extractProduct record with
      | .error e => .error e
      | .ok product =>
        match pyGetItem product ("Gene-commentary_accession") with
        | .error e => .error e
        | .ok protein_accession =>
          match navGenomicCoords product with
          | .error e => .error e
          | .ok _genomic_coords =>
            match extractGeneEnd record with
            | .error e => .error e
            | .ok gene_end =>
              match extractGeneStart record with
              | .error e => .error e
              | .ok gene_start =>
                match proteinDB protein_accession with
                | .error e => .error e
                | .ok seq => .ok (protein_accession, |gene_end - gene_start|, seq.length)

/-- `fetch_gene_data` (lines 36-79): runs the `try` block and converts
ANY exception into the triple `(None, None, None)` (lines 77-79).
`_delay` is the value sampled by `random.uniform(0, 1)` at line 51; the
sleep consumes it without affecting the returned data. -/
def fetch_gene_data (geneDB : Int → Except PyExc PyObj)
    (proteinDB : PyObj → Except PyExc String)
    (_delay : Nat) (gene_id : PyObj) :
    Option PyObj × Option Int × Option Nat :=
  match fetchBody geneDB proteinDB gene_id with
  | .ok (a, g, p) => (some a, some g, some p)
  | .error _ => (none, none, none)

/-! ### Batch processor (lines 81-106) -/

/-- One row of the output table, with columns
`Gene ID, Accession, Gene Length, Protein Length` (line 101).
`data.append([gene_id, accession, gene_len, protein_len])` at line 98
stores the original `gene_id` cell value. -/
structure ResultRow where
  gene_id : PyObj
  accession : Option PyObj
  gene_length : Option Int
  protein_length : Option Nat

/-- A pandas data frame, as far as this program observes it: named
columns of cell values.  `df['Gene ID']` raises `KeyError('Gene ID')`
when the column is absent. -/
abbrev DataFrame := List (String × List PyObj)

/-- `df[name].tolist()` (line 93). -/
def dfColumn (df : DataFrame) (name : String) : Except PyExc (List PyObj) :=
  match assocLookup df name with
  | some vs => .ok vs
  | none => .error (.keyError name)

/-- The `for` loop of lines 95-98: one `ResultRow` per gene id, in
input order.  `i` is the loop index used to draw this iteration's
random delay from the stream `delays`. -/
def fetchRows (geneDB : Int → Except PyExc PyObj)
    (proteinDB : PyObj → Except PyExc String)
    (delays : Nat → Nat) : Nat → List PyObj → List ResultRow
  | _, [] => []
  | i, gid :: rest =>
      let r := fetch_gene_data geneDB proteinDB (delays i) gid
      ⟨gid, r.1, r.2.1, r.2.2⟩ :: fetchRows geneDB proteinDB delays (i + 1) rest

/-- The `try` block of `process_gene_list` (lines 89-103): read the
email (config errors abort the batch), read the input table, extract
the `Gene ID` column, fetch every row, and name the output file
`os.path.splitext(input_file)[0] + '_output.xlsx'`.  `readExcelF`
models `pd.read_excel` on the ambient filesystem. -/
def runBody (cfgFS : String → Option ConfigData)
    (readExcelF : String → Except PyExc DataFrame)
    (geneDB : Int → Except PyExc PyObj)
    (proteinDB : PyObj → Except PyExc String)
    (delays : Nat → Nat)
    (input_file : String) : Except PyExc (String × List ResultRow) :=
  match read_email_from_config cfgFS ("config.ini") with
  | .error e => .error e
  | .ok _email =>
    match readExcelF input_file with
    | .error e => .error e
    | .ok df =>
      match dfColumn df ("Gene ID") with
      | .error e => .error e
      | .ok gene_ids =>
          .ok (splitextRoot input_file ++ "_output.xlsx",
               fetchRows geneDB proteinDB delays 0 gene_ids)

/-- Observable outcome of one `process_gene_list` run. -/
inductive RunOutcome where
  /-- An exception reached the handler at lines 105-106 and was printed;
  no output file was written. -/
  | printedError (e : PyExc)
  /-- The `try` block completed: the output table was written to `path`
  (line 102) and the path reported (line 103). -/
  | wroteOutput (path : String) (rows : List ResultRow)
  /-- An exception outside `(FileNotFoundError, KeyError)` propagated
  unhandled and terminated the run. -/
  | uncaught (e : PyExc)

/-- `process_gene_list` (lines 81-106): the `try` block guarded by
`except (FileNotFoundError, KeyError) as e: print(e)`. -/
def process_gene_list (cfgFS : String → Option ConfigData)
    (readExcelF : String → Except PyExc DataFrame)
    (geneDB : Int → Except PyExc PyObj)
    (proteinDB : PyObj → Except PyExc String)
    (delays : Nat → Nat)
    (input_file : String) : RunOutcome :=
  match runBody cfgFS readExcelF geneDB proteinDB delays input_file with
  | .ok (p, rows) => .wroteOutput p rows
  | .error e => if e.caughtByProcess then .printedError e else .uncaught e

/-! ### Concrete sample environments used by the witnesses -/

/-- A filesystem holding one valid `config.ini`. -/
def sampleCfgFS : String → Option ConfigData :=
  fun p => if p = "config.ini" then some [("NCBI", [("email", "user@example.com")])] else none

/-- An input table with a `Gene ID` column of two identifiers. -/
def sampleDF : DataFrame := [("Gene ID", [.int 7157, .int 7159])]

/-- `pd.read_excel` over a filesystem holding `samples.xlsx`. -/
def sampleExcelFS : String → Except PyExc DataFrame :=
  fun p => if p = "samples.xlsx" then .ok sampleDF
           else .error (.fileNotFoundError ("No such file or directory: " ++ p))

/-- An input table whose only column is not named `Gene ID`. -/
def noGeneIdDF : DataFrame := [("Identifier", [.int 7157])]

/-- The `Seq-interval` dictionary of the sample gene record (TP53-like). -/
def sampleInterval : PyObj :=
  .dict [("Seq-interval_to", .str ("7687538")), ("Seq-interval_from", .str ("7661779"))]

/-- The doubly nested product entry of the sample gene record. -/
def sampleProduct : PyObj :=
  .dict [("Gene-commentary_accession", .str ("NP_000537.3")),
         ("Gene-commentary_genomic-coords",
          .list [.dict [("Seq-loc_mix",
                         .dict [("Seq-loc-mix",
                                 .list [.dict [("Seq-loc_int",
                                               .dict [("Seq-interval", .dict [])])]])])]])]

/-- The locus entry of the sample gene record. -/
def sampleLocus : PyObj :=
  .dict [("Gene-commentary_products",
          .list [.dict [("Gene-commentary_products", .list [sampleProduct])]]),
         ("Gene-commentary_seqs",
          .list [.dict [("Seq-loc_int", .dict [("Seq-interval", sampleInterval)])]])]

/-- The full sample record, shaped like `Entrez.read`'s result. -/
def sampleRecord : PyObj := .list [.dict [("Entrezgene_locus", .list [sampleLocus])]]

/-- A gene service knowing exactly gene 7157. -/
def sampleGeneDB : Int → Except PyExc PyObj :=
  fun n => if n = 7157 then .ok sampleRecord else .error (.valueError ("HTTP Error 400"))

/-- A protein service returning a ten-residue sequence for any accession. -/
def sampleProteinDB : PyObj → Except PyExc String :=
  fun _ => .ok ("MEEPQSDPSV")

/-- A gene service for which every lookup raises. -/
def failGeneDB : Int → Except PyExc PyObj :=
  fun _ => .error (.valueError ("HTTP Error 400"))

/-! ### Helper lemmas -/

theorem stringMk_append (a b : List Char) : String.mk a ++ String.mk b = String.mk (a ++ b) :=
  rfl

theorem splitextCore_append (cs : List Char) :
    (splitextCore cs).1 ++ (splitextCore cs).2 = cs := by
  simp only [splitextCore]
  split
  · split
    · exact List.take_append_drop _ _
    · simp
  · simp

theorem splitext_root_ext (p : String) : splitextRoot p ++ splitextExt p = p := by
  unfold splitextRoot splitextExt
  rw [stringMk_append, splitextCore_append]

theorem fetchRows_length (gdb : Int → Except PyExc PyObj) (pdb : PyObj → Except PyExc String)
    (d : Nat → Nat) (l : List PyObj) : ∀ i : Nat, (fetchRows gdb pdb d i l).length = l.length := by
  induction l with
  | nil => intro i; rfl
  | cons g rest ih => intro i; simp only [fetchRows, List.length_cons, ih]

theorem fetchRows_get? (gdb : Int → Except PyExc PyObj) (pdb : PyObj → Except PyExc String)
    (d : Nat → Nat) (l : List PyObj) : ∀ i j : Nat,
    (fetchRows gdb pdb d i l).get? j =
      (l.get? j).map (fun gid =>
        let r := fetch_gene_data gdb pdb (d (i + j)) gid
        ResultRow.mk gid r.1 r.2.1 r.2.2) := by
  induction l with
  | nil => intro i j; simp [fetchRows]
  | cons g rest ih =>
    intro i j
    cases j with
    | zero => simp [fetchRows]
    | succ j =>
      have h : i + (j + 1) = (i + 1) + j := by omega
      simp only [fetchRows, List.get?_cons_succ, ih (i + 1) j, h]

theorem fetchRows_delay_independent (gdb : Int → Except PyExc PyObj)
    (pdb : PyObj → Except PyExc String) (d1 d2 : Nat → Nat) (l : List PyObj) :
    ∀ i j : Nat, fetchRows gdb pdb d1 i l = fetchRows gdb pdb d2 j l := by
  induction l with
  | nil => intro i j; rfl
  | cons g rest ih =>
    intro i j
    simp only [fetchRows, List.cons.injEq]
    exact ⟨rfl, ih (i + 1) (j + 1)⟩

theorem runBody_ok (cfgFS : String → Option ConfigData)
    (readExcelF : String → Except PyExc DataFrame) (gdb : Int → Except PyExc PyObj)
    (pdb : PyObj → Except PyExc String) (d : Nat → Nat) (input em : String)
    (df : DataFrame) (ids : List PyObj)
    (hm : read_email_from_config cfgFS ("config.ini") = .ok em)
    (hdf : readExcelF input = .ok df)
    (hids : dfColumn df ("Gene ID") = .ok ids) :
    runBody cfgFS readExcelF gdb pdb d input =
      .ok (splitextRoot input ++ "_output.xlsx", fetchRows gdb pdb d 0 ids) := by
  unfold runBody
  rw [hm, hdf]
  simp only [hids]

theorem runBody_ok_path (cfgFS : String → Option ConfigData)
    (readExcelF : String → Except PyExc DataFrame) (gdb : Int → Except PyExc PyObj)
    (pdb : PyObj → Except PyExc String) (d : Nat → Nat) (input q : String)
    (rs : List ResultRow)
    (h : runBody cfgFS readExcelF gdb pdb d input = .ok (q, rs)) :
    q = splitextRoot input ++ "_output.xlsx" := by
  unfold runBody at h
  split at h
  · simp at h
  · split at h
    · simp at h
    · split at h
      · simp at h
      · simp only [Except.ok.injEq, Prod.mk.injEq] at h
        exact h.1.symm

theorem process_gene_list_ok (cfgFS : String → Option ConfigData)
    (readExcelF : String → Except PyExc DataFrame) (gdb : Int → Except PyExc PyObj)
    (pdb : PyObj → Except PyExc String) (d : Nat → Nat) (input em : String)
    (df : DataFrame) (ids : List PyObj)
    (hm : read_email_from_config cfgFS ("config.ini") = .ok em)
    (hdf : readExcelF input = .ok df)
    (hids : dfColumn df ("Gene ID") = .ok ids) :
    process_gene_list cfgFS readExcelF gdb pdb d input =
      .wroteOutput (splitextRoot input ++ "_output.xlsx") (fetchRows gdb pdb d 0 ids) := by
  unfold process_gene_list
  rw [runBody_ok cfgFS readExcelF gdb pdb d input em df ids hm hdf hids]

theorem process_wrote_inv (cfgFS : String → Option ConfigData)
    (readExcelF : String → Except PyExc DataFrame) (gdb : Int → Except PyExc PyObj)
    (pdb : PyObj → Except PyExc String) (d : Nat → Nat) (input p : String)
    (rows : List ResultRow)
    (h : process_gene_list cfgFS readExcelF gdb pdb d input = .wroteOutput p rows) :
    runBody cfgFS readExcelF gdb pdb d input = .ok (p, rows) := by
  unfold process_gene_list at h
  split at h
  next p2 rows2 heq =>
    injection h with h1 h2
    subst h1
    subst h2
    exact heq
  next e heq =>
    split at h <;> cases h

/-! ### Claim theorems -/

/-- C1: for every input table of N gene identifiers, `process_gene_list`
produces an output table with exactly N rows, in the same order as the
input, and each row's `Gene ID` field equals the corresponding input
identifier value (the original cell value, even when the fetch for that
identifier failed — no assumption is made on the gene or protein
services here). -/
theorem output_preserves_gene_ids (cfgFS : String → Option ConfigData)
    (readExcelF : String → Except PyExc DataFrame) (gdb : Int → Except PyExc PyObj)
    (pdb : PyObj → Except PyExc String) (d : Nat → Nat) (input em : String)
    (df : DataFrame) (ids : List PyObj)
    (hm : read_email_from_config cfgFS ("config.ini") = .ok em)
    (hdf : readExcelF input = .ok df)
    (hids : dfColumn df ("Gene ID") = .ok ids) :
    process_gene_list cfgFS readExcelF gdb pdb d input =
      .wroteOutput (splitextRoot input ++ "_output.xlsx") (fetchRows gdb pdb d 0 ids)
    ∧ (fetchRows gdb pdb d 0 ids).length = ids.length
    ∧ ∀ j : Nat, ((fetchRows gdb pdb d 0 ids).get? j).map ResultRow.gene_id = ids.get? j := by
  refine ⟨process_gene_list_ok _ _ _ _ _ _ _ _ _ hm hdf hids,
    fetchRows_length _ _ _ _ 0, ?_⟩
  intro j
  rw [fetchRows_get?]
  cases hg : ids.get? j <;> simp [hg]

theorem output_preserves_gene_ids_witness :
    (fetchRows failGeneDB sampleProteinDB (fun _ => 0) 0 [PyObj.int 7157, PyObj.int 7159]).length = 2
    ∧ ((fetchRows failGeneDB sampleProteinDB (fun _ => 0) 0
          [PyObj.int 7157, PyObj.int 7159]).get? 1).map ResultRow.gene_id =
        some (PyObj.int 7159) :=
  ⟨(output_preserves_gene_ids sampleCfgFS sampleExcelFS failGeneDB sampleProteinDB (fun _ => 0)
      ("samples.xlsx") ("user@example.com") sampleDF [PyObj.int 7157, PyObj.int 7159]
      rfl rfl rfl).2.1,
   (output_preserves_gene_ids sampleCfgFS sampleExcelFS failGeneDB sampleProteinDB (fun _ => 0)
      ("samples.xlsx") ("user@example.com") sampleDF [PyObj.int 7157, PyObj.int 7159]
      rfl rfl rfl).2.2 1⟩

/-- C2: the claim says a missing configuration file makes
`read_email_from_config` fail with `FileNotFoundError` carrying the
config-format remediation text, as the function's own docstring and
dead `except FileNotFoundError` branch intend.  In fact
`configparser.ConfigParser.read` silently skips files it cannot open,
so a missing file yields an empty parser, `config['NCBI']` raises
`KeyError`, and the caller observes the `KeyError` remediation message
about the `email` key instead.  This theorem evaluates the model at a
missing file and exhibits the divergence. -/
theorem missing_config_file_yields_keyError :
    read_email_from_config (fun _ => none) ("missing.ini") = .error (.keyError keyMissingMsg)
    ∧ (Except.error (PyExc.keyError keyMissingMsg) : Except PyExc String) ≠
        Except.error (PyExc.fileNotFoundError (configMissingMsg ("missing.ini"))) :=
  ⟨rfl, fun h => PyExc.noConfusion (Except.error.inj h)⟩

/-- C3: if the fetch body raises any exception for a given identifier,
`fetch_gene_data` returns `(None, None, None)`, the corresponding
output row keeps the gene id with the three fields absent, and
`process_gene_list` still writes a full output table (one row per
identifier) instead of aborting. -/
theorem fetch_exception_yields_absent_row (cfgFS : String → Option ConfigData)
    (readExcelF : String → Except PyExc DataFrame) (gdb : Int → Except PyExc PyObj)
    (pdb : PyObj → Except PyExc String) (d : Nat → Nat) (input em : String)
    (df : DataFrame) (ids : List PyObj) (i : Nat) (gid : PyObj) (e : PyExc)
    (hm : read_email_from_config cfgFS ("config.ini") = .ok em)
    (hdf : readExcelF input = .ok df)
    (hids : dfColumn df ("Gene ID") = .ok ids)
    (hgid : ids.get? i = some gid)
    (hfail : fetchBody gdb pdb gid = .error e) :
    fetch_gene_data gdb pdb (d i) gid = (none, none, none)
    ∧ (fetchRows gdb pdb d 0 ids).get? i = some (ResultRow.mk gid none none none)
    ∧ process_gene_list cfgFS readExcelF gdb pdb d input =
        .wroteOutput (splitextRoot input ++ "_output.xlsx") (fetchRows gdb pdb d 0 ids)
    ∧ (fetchRows gdb pdb d 0 ids).length = ids.length := by
  have hfe : ∀ dl : Nat, fetch_gene_data gdb pdb dl gid = (none, none, none) := by
    intro dl
    unfold fetch_gene_data
    rw [hfail]
  refine ⟨hfe (d i), ?_, process_gene_list_ok _ _ _ _ _ _ _ _ _ hm hdf hids,
    fetchRows_length _ _ _ _ 0⟩
  rw [fetchRows_get?, hgid]
  simp [hfe]

theorem fetch_exception_yields_absent_row_witness :
    fetch_gene_data failGeneDB sampleProteinDB 0 (.int 7157) = (none, none, none)
    ∧ (fetchRows failGeneDB sampleProteinDB (fun _ => 0) 0
        [PyObj.int 7157, PyObj.int 7159]).get? 0 =
        some (ResultRow.mk (.int 7157) none none none) :=
  ⟨(fetch_exception_yields_absent_row sampleCfgFS sampleExcelFS failGeneDB sampleProteinDB
      (fun _ => 0) ("samples.xlsx") ("user@example.com") sampleDF
      [PyObj.int 7157, PyObj.int 7159] 0 (.int 7157) (.valueError ("HTTP Error 400"))
      rfl rfl rfl rfl rfl).1,
   (fetch_exception_yields_absent_row sampleCfgFS sampleExcelFS failGeneDB sampleProteinDB
      (fun _ => 0) ("samples.xlsx") ("user@example.com") sampleDF
      [PyObj.int 7157, PyObj.int 7159] 0 (.int 7157) (.valueError ("HTTP Error 400"))
      rfl rfl rfl rfl rfl).2.1⟩

/-- C4 counterexample: the claim says a missing `Gene ID` column makes
the failure propagate unhandled.  In fact `df['Gene ID']` raises
`KeyError('Gene ID')`, which the `except (FileNotFoundError, KeyError)`
handler at lines 105-106 catches and prints: at this concrete input the
run ends as `printedError`, not as an uncaught propagation. -/
theorem missing_column_caught_counterexample :
    process_gene_list sampleCfgFS (fun _ => .ok noGeneIdDF) failGeneDB sampleProteinDB
      (fun _ => 0) ("samples.xlsx") = .printedError (.keyError ("Gene ID"))
    ∧ process_gene_list sampleCfgFS (fun _ => .ok noGeneIdDF) failGeneDB sampleProteinDB
      (fun _ => 0) ("samples.xlsx") ≠ .uncaught (.keyError ("Gene ID")) :=
  ⟨rfl, fun h => RunOutcome.noConfusion h⟩

/-- C4 (amended): once the configuration was read successfully, an
input-table failure of class `FileNotFoundError` (unreadable/missing
file) or `KeyError` (missing `Gene ID` column) is caught by the same
handler that catches configuration errors and is printed, ending the
run without output; only read failures outside these two classes
propagate unhandled and terminate the run. -/
theorem input_read_errors_are_caught (cfgFS : String → Option ConfigData)
    (readExcelF : String → Except PyExc DataFrame) (gdb : Int → Except PyExc PyObj)
    (pdb : PyObj → Except PyExc String) (d : Nat → Nat) (input em : String)
    (hm : read_email_from_config cfgFS ("config.ini") = .ok em) :
    (∀ df : DataFrame, readExcelF input = .ok df →
        dfColumn df ("Gene ID") = .error (.keyError ("Gene ID")) →
        process_gene_list cfgFS readExcelF gdb pdb d input =
          .printedError (.keyError ("Gene ID")))
    ∧ (∀ msg : String, readExcelF input = .error (.fileNotFoundError msg) →
        process_gene_list cfgFS readExcelF gdb pdb d input =
          .printedError (.fileNotFoundError msg))
    ∧ (∀ e : PyExc, readExcelF input = .error e → e.caughtByProcess = false →
        process_gene_list cfgFS readExcelF gdb pdb d input = .uncaught e) := by
  refine ⟨?_, ?_, ?_⟩
  · intro df hdf hcol
    unfold process_gene_list runBody
    rw [hm, hdf]
    simp [hcol, PyExc.caughtByProcess]
  · intro msg hdf
    unfold process_gene_list runBody
    rw [hm, hdf]
    simp [PyExc.caughtByProcess]
  · intro e hdf hc
    unfold process_gene_list runBody
    rw [hm, hdf]
    simp [hc]

theorem input_read_errors_are_caught_witness :
    process_gene_list sampleCfgFS (fun _ => .ok noGeneIdDF) failGeneDB sampleProteinDB
      (fun _ => 0) ("in.xlsx") = .printedError (.keyError ("Gene ID"))
    ∧ process_gene_list sampleCfgFS (fun _ => .error (.valueError ("File is not a zip file")))
        failGeneDB sampleProteinDB (fun _ => 0) ("in.xlsx") =
        .uncaught (.valueError ("File is not a zip file")) :=
  ⟨(input_read_errors_are_caught sampleCfgFS (fun _ => .ok noGeneIdDF) failGeneDB
      sampleProteinDB (fun _ => 0) ("in.xlsx") ("user@example.com") rfl).1 noGeneIdDF rfl rfl,
   (input_read_errors_are_caught sampleCfgFS
      (fun _ => .error (.valueError ("File is not a zip file"))) failGeneDB sampleProteinDB
      (fun _ => 0) ("in.xlsx") ("user@example.com") rfl).2.2
      (.valueError ("File is not a zip file")) rfl rfl⟩

/-- C5: for every configuration file that exists and parses with an
`NCBI` section lacking the `email` key, `read_email_from_config` fails
with the `KeyError` carrying the remediation message `keyMissingMsg`. -/
theorem missing_email_key_raises_field_missing (fs : String → Option ConfigData)
    (path : String) (cfg : ConfigData) (sect : ConfigSection)
    (hfile : fs path = some cfg)
    (hsec : assocLookup cfg ("NCBI") = some sect)
    (hkey : assocLookup sect ("email") = none) :
    read_email_from_config fs path = .error (.keyError keyMissingMsg) := by
  unfold read_email_from_config emailTryBody configRead
  rw [hfile]
  simp [hsec, hkey]

theorem missing_email_key_raises_field_missing_witness :
    read_email_from_config (fun _ => some [("NCBI", [("contact", "nobody")])]) ("config.ini") =
      .error (.keyError keyMissingMsg) :=
  missing_email_key_raises_field_missing (fun _ => some [("NCBI", [("contact", "nobody")])])
    ("config.ini") [("NCBI", [("contact", "nobody")])] [("contact", "nobody")] rfl rfl rfl

/-- C6: for every configuration file containing section `NCBI` with key
`email`, `read_email_from_config` returns exactly the stored string. -/
theorem valid_config_returns_email (fs : String → Option ConfigData)
    (path : String) (cfg : ConfigData) (sect : ConfigSection) (v : String)
    (hfile : fs path = some cfg)
    (hsec : assocLookup cfg ("NCBI") = some sect)
    (hkey : assocLookup sect ("email") = some v) :
    read_email_from_config fs path = .ok v := by
  unfold read_email_from_config emailTryBody configRead
  rw [hfile]
  simp [hsec, hkey]

theorem valid_config_returns_email_witness :
    read_email_from_config sampleCfgFS ("config.ini") = .ok ("user@example.com") :=
  valid_config_returns_email sampleCfgFS ("config.ini")
    [("NCBI", [("email", "user@example.com")])] [("email", "user@example.com")]
    ("user@example.com") rfl rfl rfl

/-- C7: whenever the fetch body succeeds, the gene length it returns
equals the absolute difference of the `Seq-interval_to` and
`Seq-interval_from` coordinates extracted from the gene record,
including when the end coordinate is below the start. -/
theorem gene_length_is_abs_diff (gdb : Int → Except PyExc PyObj)
    (pdb : PyObj → Except PyExc String) (gene_id : PyObj) (n e s : Int)
    (record acc : PyObj) (g : Int) (plen : Nat)
    (hn : pyToInt gene_id = .ok n)
    (hrec : gdb n = .ok record)
    (hok : fetchBody gdb pdb gene_id = .ok (acc, g, plen))
    (hend : extractGeneEnd record = .ok e)
    (hstart : extractGeneStart record = .ok s) :
    g = |e - s| := by
  unfold fetchBody at hok
  simp only [hn, hrec, hend, hstart] at hok
  cases hp : extractProduct record with
  | error err => simp [hp] at hok
  | ok product =>
    simp only [hp] at hok
    cases ha : pyGetItem product ("Gene-commentary_accession") with
    | error err => simp [ha] at hok
    | ok pacc =>
      simp only [ha] at hok
      cases hnav : navGenomicCoords product with
      | error err => simp [hnav] at hok
      | ok gc =>
        simp only [hnav] at hok
        cases hseq : pdb pacc with
        | error err => simp [hseq] at hok
        | ok seq =>
          simp only [hseq, Except.ok.injEq, Prod.mk.injEq] at hok
          exact hok.2.1.symm

theorem gene_length_is_abs_diff_witness :
    fetchBody sampleGeneDB sampleProteinDB (.str ("7157")) =
      .ok (.str ("NP_000537.3"), 25759, 10)
    ∧ extractGeneEnd sampleRecord = .ok 7687538
    ∧ extractGeneStart sampleRecord = .ok 7661779
    ∧ (25759 : Int) = |(7687538 : Int) - 7661779| :=
  ⟨rfl, rfl, rfl,
   gene_length_is_abs_diff sampleGeneDB sampleProteinDB (.str ("7157")) 7157 7687538 7661779
     sampleRecord (.str ("NP_000537.3")) 25759 10 rfl rfl rfl rfl rfl⟩

/-- C8: whenever a run writes an output file, its path is the input
path with the extension replaced by `.xlsx` and `_output` appended
before it (`os.path.splitext(input)[0] + '_output.xlsx'`); the root
and extension recompose to the input path, so the directory part is
unchanged. -/
theorem output_file_naming (cfgFS : String → Option ConfigData)
    (readExcelF : String → Except PyExc DataFrame) (gdb : Int → Except PyExc PyObj)
    (pdb : PyObj → Except PyExc String) (d : Nat → Nat) (input p : String)
    (rows : List ResultRow)
    (h : process_gene_list cfgFS readExcelF gdb pdb d input = .wroteOutput p rows) :
    p = splitextRoot input ++ "_output.xlsx"
    ∧ splitextRoot input ++ splitextExt input = input :=
  ⟨runBody_ok_path cfgFS readExcelF gdb pdb d input p rows
      (process_wrote_inv cfgFS readExcelF gdb pdb d input p rows h),
   splitext_root_ext input⟩

theorem output_file_naming_witness :
    ("samples_output.xlsx" : String) = splitextRoot ("samples.xlsx") ++ "_output.xlsx"
    ∧ splitextRoot ("samples.xlsx") ++ splitextExt ("samples.xlsx") = "samples.xlsx" :=
  output_file_naming sampleCfgFS sampleExcelFS failGeneDB sampleProteinDB (fun _ => 0)
    ("samples.xlsx") ("samples_output.xlsx")
    [ResultRow.mk (.int 7157) none none none, ResultRow.mk (.int 7159) none none none] rfl

/-- C9: with fixed services, configuration and input, two runs of
`process_gene_list` that differ only in the stream of random sleep
delays produce identical outcomes — the delay is the program's only
source of nondeterminism and it does not influence the output table. -/
theorem process_independent_of_random_delays (cfgFS : String → Option ConfigData)
    (readExcelF : String → Except PyExc DataFrame) (gdb : Int → Except PyExc PyObj)
    (pdb : PyObj → Except PyExc String) (d1 d2 : Nat → Nat) (input : String) :
    process_gene_list cfgFS readExcelF gdb pdb d1 input =
      process_gene_list cfgFS readExcelF gdb pdb d2 input := by
  have h : ∀ ids : List PyObj, fetchRows gdb pdb d1 0 ids = fetchRows gdb pdb d2 0 ids :=
    fun ids => fetchRows_delay_independent gdb pdb d1 d2 ids 0 0
  unfold process_gene_list runBody
  simp only [h]

/-- C10: a configuration file that exists and parses but has no `NCBI`
section fails exactly like the missing-key case: the section lookup's
`KeyError` is re-raised with the same `keyMissingMsg` message about the
`email` key; there is no distinct missing-section error. -/
theorem missing_section_same_as_missing_key (fs : String → Option ConfigData)
    (path : String) (cfg : ConfigData)
    (hfile : fs path = some cfg)
    (hsec : assocLookup cfg ("NCBI") = none) :
    read_email_from_config fs path = .error (.keyError keyMissingMsg) := by
  unfold read_email_from_config emailTryBody configRead
  rw [hfile]
  simp [hsec]

theorem missing_section_same_as_missing_key_witness :
    read_email_from_config (fun _ => some [("Entrez", [("email", "x@y.z")])]) ("config.ini") =
      .error (.keyError keyMissingMsg) :=
  missing_section_same_as_missing_key (fun _ => some [("Entrez", [("email", "x@y.z")])])
    ("config.ini") [("Entrez", [("email", "x@y.z")])] rfl rfl

end GeneToolSpec
